import Mathlib

/-!
Verification of the Emotional Voice Modulation Stage of the ginger voice bot.

Shallow embedding of the relevant parts of
`apps/ginger/backend/emotive_tts_processor.py` and
`apps/ginger/backend/bot.py`.  Python floats are modelled as exact
rationals (`ℚ`), Python `None`-able values as `Option`, dynamic dict keys
that may be absent as `Option` fields read through `Option.getD` with the
source's defaults, and code paths that raise as `Except`.
-/

set_option maxRecDepth 4000

namespace Ginger

/-- `class PrimaryEmotion(str, Enum)` from emotive_tts_processor.py. -/
inductive PrimaryEmotion where
  | joy | sadness | anger | fear | disgust | surprise | neutral
deriving DecidableEq, Repr

/-- `@dataclass class BodyState` (defaults from the source). -/
structure BodyState where
  heart_rate : ℚ := 72
  temperature : ℚ := 0
  tension : ℚ := 0.2
  energy : ℚ := 0.5
  breathing : ℚ := 0.3
deriving DecidableEq, Repr

/-- `@dataclass class EmotiveVoiceState`. -/
structure EmotiveVoiceState where
  primary_emotion : PrimaryEmotion
  intensity : ℚ
  nuanced_emotion : Option String := none
  body_state : Option BodyState := none
deriving DecidableEq, Repr

/-- One row of `CARTESIA_EMOTION_MAP` (the "low"/"medium"/"high" dict). -/
structure EmotionBands where
  low : String
  medium : String
  high : String
deriving DecidableEq, Repr

/-- `CARTESIA_EMOTION_MAP` from emotive_tts_processor.py. -/
def CARTESIA_EMOTION_MAP : PrimaryEmotion → EmotionBands
  | .joy => ⟨"content", "happy", "excited"⟩
  | .sadness => ⟨"disappointed", "sad", "melancholic"⟩
  | .anger => ⟨"frustrated", "angry", "outraged"⟩
  | .fear => ⟨"anxious", "anxious", "panicked"⟩
  | .disgust => ⟨"skeptical", "contempt", "contempt"⟩
  | .surprise => ⟨"curious", "surprised", "amazed"⟩
  | .neutral => ⟨"calm", "neutral", "calm"⟩

/-- An entry of the `emotions` list of a sable-mcp state dict.  The keys
`"type"` and `"intensity"` may be absent, hence `Option` fields; the
source reads them with `e.get("type", "neutral")` / `e.get("intensity", 0)`. -/
structure SableEmotion where
  etype : Option String := none
  intensity : Option ℚ := none
deriving DecidableEq, Repr

/-- The `body_state` sub-dict of a sable-mcp state dict (keys may be absent). -/
structure SableBodyData where
  heart_rate : Option ℚ := none
  temperature : Option ℚ := none
  tension : Option ℚ := none
  energy : Option ℚ := none
  breathing : Option ℚ := none
deriving DecidableEq, Repr

/-- A sable-mcp emotional state dict as consumed by
`map_sable_to_emotive_state` (keys `"emotions"` and `"body_state"`). -/
structure SableState where
  emotions : Option (List SableEmotion) := none
  body_state : Option SableBodyData := none
deriving DecidableEq, Repr

/-- Sort key used by `sorted(emotions, key=lambda e: e.get("intensity", 0), ...)`. -/
def ikey (e : SableEmotion) : ℚ := e.intensity.getD 0

/-- Stable insertion of one element into a list already sorted by
descending `ikey`: the new element goes after every strictly larger
element and before equal ones (the element being inserted is earlier in
the input than all elements of the list, matching Python's stable sort). -/
def insertDesc (e : SableEmotion) : List SableEmotion → List SableEmotion
  | [] => [e]
  | x :: xs => if ikey x > ikey e then x :: insertDesc e xs else e :: x :: xs

/-- Model of Python's stable `sorted(emotions, key=..., reverse=True)`
(descending by `ikey`, ties kept in first-occurrence order). -/
def pySortedDesc : List SableEmotion → List SableEmotion
  | [] => []
  | x :: xs => insertDesc x (pySortedDesc xs)

/-- Model of the `PrimaryEmotion(emotion_type)` enum constructor: `some`
for the seven enum values, `none` models the `ValueError` branch. -/
def primaryEmotionOfString? (s : String) : Option PrimaryEmotion :=
  if s = "joy" then some .joy
  else if s = "sadness" then some .sadness
  else if s = "anger" then some .anger
  else if s = "fear" then some .fear
  else if s = "disgust" then some .disgust
  else if s = "surprise" then some .surprise
  else if s = "neutral" then some .neutral
  else none

/-- Python truthiness-guarded test `body_state and body_state.energy < q`
(a `BodyState` object is always truthy, `None` is falsy). -/
def bodyEnergyBelow (body_state : Option BodyState) (q : ℚ) : Bool :=
  match body_state with
  | some b => decide (b.energy < q)
  | none => false

/-- `infer_nuanced_emotion` from emotive_tts_processor.py. -/
def infer_nuanced_emotion (primary : PrimaryEmotion) (intensity : ℚ)
    (body_state : Option BodyState) : Option String :=
  if primary = .joy then
    if intensity > 0.8 then some "enthusiastic"
    else if intensity > 0.6 then some "excited"
    else if bodyEnergyBelow body_state 0.4 then some "content"
    else if intensity > 0.4 then some "happy" else some "content"
  else if primary = .sadness then
    if intensity > 0.8 then some "dejected"
    else if bodyEnergyBelow body_state 0.3 then some "disappointed"
    else if intensity > 0.5 then some "melancholic" else some "nostalgic"
  else if primary = .anger then
    if intensity > 0.8 then some "outraged"
    else if intensity > 0.6 then some "mad"
    else some "frustrated"
  else if primary = .fear then
    if intensity > 0.8 then some "panicked"
    else if intensity > 0.6 then some "alarmed"
    else some "anxious"
  else if primary = .surprise then
    if intensity > 0.7 then some "amazed"
    else some "curious"
  else none

/-- Python truthiness of an `Optional[str]`: `None` and `""` are falsy. -/
def truthyOptStr : Option String → Bool
  | none => false
  | some s => !(s == "")

/-- `select_cartesia_emotion` from emotive_tts_processor.py.  The dict
lookup `CARTESIA_EMOTION_MAP.get(state.primary_emotion, ...NEUTRAL...)`
always hits a key, so the total function `CARTESIA_EMOTION_MAP` models it. -/
def select_cartesia_emotion (state : EmotiveVoiceState) : String :=
  if truthyOptStr state.nuanced_emotion then state.nuanced_emotion.getD ""
  else
    let mapping := CARTESIA_EMOTION_MAP state.primary_emotion
    if state.intensity < 0.35 then mapping.low
    else if state.intensity < 0.7 then mapping.medium
    else mapping.high

/-- `calculate_speed_modifier` from emotive_tts_processor.py. -/
def calculate_speed_modifier (state : EmotiveVoiceState) : ℚ :=
  match state.body_state with
  | none => 1.0
  | some body =>
    let energy := body.energy
    if energy < 0.3 then 0.8 + (energy / 0.3) * 0.15
    else if energy > 0.7 then 1.05 + ((energy - 0.7) / 0.3) * 0.25
    else 0.95 + ((energy - 0.3) / 0.4) * 0.1

/-- `calculate_volume_modifier` from emotive_tts_processor.py. -/
def calculate_volume_modifier (state : EmotiveVoiceState) : ℚ :=
  let volume : ℚ := 1.0
  let volume :=
    match state.body_state with
    | some body => if body.tension > 0.6 then 1.0 + (body.tension - 0.6) * 0.5 else volume
    | none => volume
  let volume :=
    if state.intensity > 0.7 then volume * (1 + (state.intensity - 0.7) * 0.3) else volume
  max 0.5 (min 2.0 volume)

/-- Round half to even at integer precision (Python's rounding of a
decimal-format tie; exact-rational model of `f"{x:.2f}"` rounding). -/
def roundHalfToEven (q : ℚ) : ℤ :=
  let f := ⌊q⌋
  let frac := q - f
  if frac < 1/2 then f
  else if frac > 1/2 then f + 1
  else if f % 2 = 0 then f else f + 1

/-- Exact-rational model of Python's fixed-point format `f"{x:.2f}"`. -/
def formatFixed2 (q : ℚ) : String :=
  let n : ℤ := roundHalfToEven (q * 100)
  let sign := if n < 0 then "-" else ""
  let m := n.natAbs
  sign ++ toString (m / 100) ++ "." ++ (if m % 100 < 10 then "0" else "") ++ toString (m % 100)

/-- Python's `" ".join(tags)`. -/
def joinSp : List String → String
  | [] => ""
  | [x] => x
  | x :: y :: rest => x ++ " " ++ joinSp (y :: rest)

/-- `generate_ssml_prefix` from emotive_tts_processor.py (the name avoids
a reserved suffix; the body is the source function unchanged). -/
def generate_ssml_tags (state : EmotiveVoiceState) (use_ssml : Bool) : String :=
  if !use_ssml then ""
  else
    let tags : List String := ["<emotion value=\"" ++ select_cartesia_emotion state ++ "\" />"]
    let speed := calculate_speed_modifier state
    let tags := tags ++
      (if |speed - 1.0| > 0.05 then ["<speed ratio=\"" ++ formatFixed2 speed ++ "\" />"] else [])
    let volume := calculate_volume_modifier state
    let tags := tags ++
      (if |volume - 1.0| > 0.05 then ["<volume ratio=\"" ++ formatFixed2 volume ++ "\" />"] else [])
    joinSp tags

/-- The Cartesia `generation_config` dict built by `generate_cartesia_config`. -/
structure CartesiaConfig where
  emotion : String
  speed : Option ℚ := none
  volume : Option ℚ := none
deriving DecidableEq, Repr

/-- Python's `round(x, 2)` on our exact-rational model. -/
def round2 (q : ℚ) : ℚ := (roundHalfToEven (q * 100) : ℚ) / 100

/-- `generate_cartesia_config` from emotive_tts_processor.py. -/
def generate_cartesia_config (state : EmotiveVoiceState) : CartesiaConfig :=
  let emotion := select_cartesia_emotion state
  let speed := calculate_speed_modifier state
  let volume := calculate_volume_modifier state
  { emotion := emotion
    speed := if |speed - 1.0| > 0.05 then some (round2 speed) else none
    volume := if |volume - 1.0| > 0.05 then some (round2 volume) else none }

/-- `map_sable_to_emotive_state` from emotive_tts_processor.py.  The
nonempty branch takes `sorted(emotions, key=..., reverse=True)[0]`; the
`headD e` default is unreachable because the sort of a nonempty list is
nonempty (`pySortedDesc_head_spec`). -/
def map_sable_to_emotive_state (sable_state : SableState) : EmotiveVoiceState :=
  let emotions := sable_state.emotions.getD []
  let primaryPair : String × ℚ :=
    match emotions with
    | [] => ("neutral", 0)
    | e :: rest =>
      let primary := (pySortedDesc (e :: rest)).headD e
      (primary.etype.getD "neutral", primary.intensity.getD 0)
  let primary_emotion := (primaryEmotionOfString? primaryPair.1).getD .neutral
  let bsd := sable_state.body_state.getD {}
  let body_state : BodyState :=
    { heart_rate := bsd.heart_rate.getD 72
      temperature := bsd.temperature.getD 0
      tension := bsd.tension.getD 0.2
      energy := bsd.energy.getD 0.5
      breathing := bsd.breathing.getD 0.3 }
  let nuanced_emotion := infer_nuanced_emotion primary_emotion primaryPair.2 (some body_state)
  { primary_emotion := primary_emotion
    intensity := primaryPair.2
    nuanced_emotion := nuanced_emotion
    body_state := some body_state }

/-- `ROLEPLAY_EMOTION_MAP` from emotive_tts_processor.py (`"neutral"`
maps to `None`; keys absent from the dict give `None` through `.get`). -/
def ROLEPLAY_EMOTION_MAP : List (String × Option String) :=
  [("angry", some "angry"), ("defensive", some "frustrated"), ("hostile", some "outraged"),
   ("frustrated", some "frustrated"), ("annoyed", some "agitated"), ("mad", some "mad"),
   ("outraged", some "outraged"),
   ("sad", some "sad"), ("hurt", some "hurt"), ("disappointed", some "disappointed"),
   ("melancholic", some "melancholic"), ("worried", some "anxious"), ("concerned", some "anxious"),
   ("receptive", some "content"), ("understanding", some "sympathetic"), ("warm", some "affectionate"),
   ("happy", some "happy"), ("excited", some "excited"), ("content", some "content"),
   ("open", some "content"),
   ("curious", some "curious"), ("skeptical", some "skeptical"), ("questioning", some "curious"),
   ("confused", some "confused"),
   ("surprised", some "surprised"), ("shocked", some "amazed"), ("amazed", some "amazed"),
   ("dismissive", some "contempt"), ("cold", some "distant"), ("distant", some "distant"),
   ("neutral", none)]

/-- Python whitespace for `str.strip()`. -/
def pyIsSpace (c : Char) : Bool :=
  c == ' ' || c == '\t' || c == '\n' || c == '\x0d' || c == '\x0b' || c == '\x0c'

/-- Python's `s.lower().strip()` (ASCII lowering, as `Char.toLower` does). -/
def pyLowerStrip (s : String) : String :=
  let lowered := s.data.map Char.toLower
  ⟨((lowered.dropWhile pyIsSpace).reverse.dropWhile pyIsSpace).reverse⟩

/-- `map_roleplay_emotion` from emotive_tts_processor.py
(`ROLEPLAY_EMOTION_MAP.get(emotion.lower().strip(), None)`). -/
def map_roleplay_emotion (emotion : String) : Option String :=
  let emotion_lower := pyLowerStrip emotion
  (ROLEPLAY_EMOTION_MAP.lookup emotion_lower).getD none

/-- `generate_roleplay_ssml` from emotive_tts_processor.py.  The Python
test `if cartesia_emotion:` is truthy for a non-`None`, nonempty string. -/
def generate_roleplay_ssml (emotion : String) (speed : ℚ) (volume : ℚ) : String :=
  let tags : List String :=
    match map_roleplay_emotion emotion with
    | some c => if c = "" then [] else ["<emotion value=\"" ++ c ++ "\" />"]
    | none => []
  let tags := tags ++
    (if |speed - 1.0| > 0.05 then ["<speed ratio=\"" ++ formatFixed2 speed ++ "\" />"] else [])
  let tags := tags ++
    (if |volume - 1.0| > 0.05 then ["<volume ratio=\"" ++ formatFixed2 volume ++ "\" />"] else [])
  joinSp tags

/-! ## bot.py: global roleplay state and its transition operations -/

/-- The `voice_modifiers` sub-dict of `_roleplay_state`. -/
structure VoiceModifiers where
  speed : ℚ
  pitch : String
deriving DecidableEq, Repr

/-- The `_roleplay_state` global dict of bot.py.  Every key is present
from initialization on; `character` and `character_emotion` hold `None`
initially, hence `Option` fields. -/
structure RoleplayState where
  active : Bool
  character : Option String
  character_emotion : Option String
  scenario : Nat
  scenario_emotions : List String
  voice_modifiers : VoiceModifiers
deriving DecidableEq, Repr

/-- The initial value of `_roleplay_state` in bot.py. -/
def initialRoleplayState : RoleplayState :=
  { active := false
    character := none
    character_emotion := none
    scenario := 0
    scenario_emotions := []
    voice_modifiers := ⟨1.0, "medium"⟩ }

/-- `update_roleplay_state` from bot.py.  Each parameter defaults to
`None` and is applied only under `if <param> is not None:`, so a `none`
argument always means "leave the field unchanged" — in particular no call
can reset `character` or `character_emotion` back to `None`. -/
def update_roleplay_state (s : RoleplayState)
    (active : Option Bool) (character : Option String)
    (character_emotion : Option String) (scenario : Option Nat)
    (scenario_emotions : Option (List String))
    (voice_modifiers : Option VoiceModifiers) : RoleplayState :=
  { active := active.getD s.active
    character := match character with | some c => some c | none => s.character
    character_emotion := match character_emotion with | some e => some e | none => s.character_emotion
    scenario := scenario.getD s.scenario
    scenario_emotions := scenario_emotions.getD s.scenario_emotions
    voice_modifiers := voice_modifiers.getD s.voice_modifiers }

/-- `start_roleplay` from bot.py: `character_emotion = scenario_emotions[0]
if scenario_emotions else "neutral"`. -/
def start_roleplay (character : String) (scenario_emotions : List String)
    (s : RoleplayState) : RoleplayState :=
  update_roleplay_state s (some true) (some character)
    (some (match scenario_emotions with | [] => "neutral" | e :: _ => e))
    (some 1) (some scenario_emotions) (some ⟨1.05, "medium"⟩)

/-- `advance_roleplay_scenario` from bot.py; returns the updated state
and the Python return value. -/
def advance_roleplay_scenario (s : RoleplayState) : RoleplayState × Bool :=
  if !s.active then (s, false)
  else
    let current := s.scenario
    let emotions := s.scenario_emotions
    if current < emotions.length then
      ({ s with scenario := current + 1, character_emotion := emotions[current]? }, true)
    else (s, false)

/-- `end_roleplay` from bot.py: note that it passes `None` for
`character` and `character_emotion`, which `update_roleplay_state`
interprets as "leave unchanged". -/
def end_roleplay (s : RoleplayState) : RoleplayState :=
  update_roleplay_state s (some false) none none (some 0) (some []) (some ⟨1.0, "medium"⟩)

/-- The `handle_set_roleplay_emotion` tool handler from bot.py:
`update_roleplay_state(character_emotion=emotion)`. -/
def set_roleplay_emotion (emotion : String) (s : RoleplayState) : RoleplayState :=
  update_roleplay_state s none none (some emotion) none none none

/-- States of `_roleplay_state` reachable from startup through the
exposed control operations of bot.py (the three registered tool handlers
plus `advance_roleplay_scenario`). `stop` models `end_roleplay` (`end`
is a keyword). -/
inductive ReachableRoleplay : RoleplayState → Prop
  | init : ReachableRoleplay initialRoleplayState
  | start (c : String) (es : List String) {s : RoleplayState} :
      ReachableRoleplay s → ReachableRoleplay (start_roleplay c es s)
  | setEmotion (e : String) {s : RoleplayState} :
      ReachableRoleplay s → ReachableRoleplay (set_roleplay_emotion e s)
  | advance {s : RoleplayState} :
      ReachableRoleplay s → ReachableRoleplay (advance_roleplay_scenario s).1
  | stop {s : RoleplayState} :
      ReachableRoleplay s → ReachableRoleplay (end_roleplay s)

/-! ## EmotiveTTSProcessor (emotive_tts_processor.py) -/

/-- `FrameDirection` from pipecat (the processor only acts on downstream frames). -/
inductive PFrameDirection where
  | downstream | upstream
deriving DecidableEq, Repr

/-- The pipecat frames the processor distinguishes. -/
inductive PFrame where
  | llmStart
  | llmEnd
  | text (t : String)
  | ttsText (t : String)
  | other
deriving DecidableEq, Repr

/-- The processor's constructor arguments: the two state providers (a
fetch that may fail is an `Except`, a missing provider is `none`), the
`use_ssml` flag, whether an `update_tts_config` callback was supplied,
and the `log_emotions` flag. -/
structure ProcEnv where
  get_emotional_state : Option (Except String SableState)
  get_roleplay_state : Option RoleplayState
  use_ssml : Bool
  has_update_tts_config : Bool
  log_emotions : Bool
deriving Repr

/-- The processor's mutable fields. -/
structure ProcState where
  current_state : Option EmotiveVoiceState
  last_emotion : Option String
  emotion_applied_for_utterance : Bool
  in_llm_response : Bool
deriving DecidableEq, Repr

/-- Field values set in `__init__`. -/
def initProcState : ProcState :=
  { current_state := none
    last_emotion := none
    emotion_applied_for_utterance := false
    in_llm_response := false }

/-- `EmotiveTTSProcessor._get_current_state`: a raising fetch (or a
missing provider) falls back to the neutral zero-intensity state. -/
def get_current_state (env : ProcEnv) : EmotiveVoiceState :=
  match env.get_emotional_state with
  | some (.ok sable_state) => map_sable_to_emotive_state sable_state
  | some (.error _) => { primary_emotion := .neutral, intensity := 0 }
  | none => { primary_emotion := .neutral, intensity := 0 }

/-- `EmotiveTTSProcessor._is_roleplay_active`: the `"character_emotion"`
key is always present in `_roleplay_state`, so `.get(..., "neutral")`
returns the stored value (possibly `None`), and `None != "neutral"`. -/
def is_roleplay_active (env : ProcEnv) : Bool :=
  match env.get_roleplay_state with
  | some roleplay_state =>
    roleplay_state.active && !(roleplay_state.character_emotion == some "neutral")
  | none => false

/-- `EmotiveTTSProcessor._get_roleplay_ssml`.  When `character_emotion`
holds `None`, `map_roleplay_emotion(None)` raises `AttributeError` on
`None.lower()`; that path is the `.error`. -/
def get_roleplay_ssml (env : ProcEnv) : Except String (Option String) :=
  match env.get_roleplay_state with
  | none => .ok none
  | some roleplay_state =>
    if !roleplay_state.active then .ok none
    else
      match roleplay_state.character_emotion with
      | none => .error "AttributeError: NoneType has no attribute lower"
      | some emotion =>
        let speed := roleplay_state.voice_modifiers.speed
        let volume : ℚ := if truthyOptStr roleplay_state.character then 1.05 else 1.0
        .ok (some (generate_roleplay_ssml emotion speed volume))

/-- Rebuilding the frame with modified text keeps the frame's class
(`TTSTextFrame` vs `TextFrame`). -/
def mkTextFrame (f : PFrame) (t : String) : PFrame :=
  match f with
  | .ttsText _ => .ttsText t
  | _ => .text t

/-- The body of `process_frame` on a `TextFrame`/`TTSTextFrame` with text
`t`.  Result: updated processor state, emitted frame, and whether the
`update_tts_config` callback was invoked. -/
def processTextFrame (env : ProcEnv) (ps : ProcState) (f : PFrame) (t : String) :
    Except String (ProcState × PFrame × Bool) :=
  if is_roleplay_active env then
    -- ROLEPLAY MODE: direct SSML injection, no config update.
    if env.use_ssml && !ps.emotion_applied_for_utterance then
      match get_roleplay_ssml env with
      | .error e => .error e
      | .ok tagStrOpt =>
        match tagStrOpt with
        | some tagStr =>
          if tagStr ≠ "" then
            .ok ({ ps with emotion_applied_for_utterance := true },
                 mkTextFrame f (tagStr ++ " " ++ t), false)
          else .ok (ps, f, false)
        | none => .ok (ps, f, false)
    else .ok (ps, f, false)
  else
    -- NORMAL MODE: fetch state once per utterance, tag, update config.
    if env.use_ssml && !ps.emotion_applied_for_utterance then
      let state := get_current_state env
      let current_emotion := select_cartesia_emotion state
      let last :=
        if env.log_emotions && !(ps.last_emotion == some current_emotion)
        then some current_emotion else ps.last_emotion
      let tagStr := generate_ssml_tags state env.use_ssml
      let f2 := if tagStr ≠ "" then mkTextFrame f (tagStr ++ " " ++ t) else f
      .ok ({ ps with
              current_state := some state
              last_emotion := last
              emotion_applied_for_utterance := true },
           f2, env.has_update_tts_config)
    else .ok (ps, f, false)

/-- `EmotiveTTSProcessor.process_frame`: boundary frames reset the
per-utterance tagged flag, text frames are tagged at most once, every
frame is pushed downstream. -/
def process_frame (env : ProcEnv) (ps : ProcState) (f : PFrame)
    (dir : PFrameDirection) : Except String (ProcState × PFrame × Bool) :=
  if dir ≠ .downstream then .ok (ps, f, false)
  else
    match f with
    | .llmStart =>
      .ok ({ ps with in_llm_response := true, emotion_applied_for_utterance := false }, f, false)
    | .llmEnd =>
      .ok ({ ps with in_llm_response := false, emotion_applied_for_utterance := false }, f, false)
    | .text t => processTextFrame env ps (.text t) t
    | .ttsText t => processTextFrame env ps (.ttsText t) t
    | .other => .ok (ps, f, false)

instance {ε α : Type} [DecidableEq ε] [DecidableEq α] : DecidableEq (Except ε α) := fun a b =>
  match a, b with
  | .ok a, .ok b =>
    if h : a = b then .isTrue (congrArg Except.ok h)
    else .isFalse (fun he => h (Except.ok.inj he))
  | .error a, .error b =>
    if h : a = b then .isTrue (congrArg Except.error h)
    else .isFalse (fun he => h (Except.error.inj he))
  | .ok _, .error _ => .isFalse (fun he => Except.noConfusion he)
  | .error _, .ok _ => .isFalse (fun he => Except.noConfusion he)

/-- Processing a stream of downstream frames in arrival order; returns
the final processor state, the emitted frames, and how many times the
`update_tts_config` callback was invoked. -/
def runFrames (env : ProcEnv) : ProcState → List PFrame →
    Except String (ProcState × List PFrame × Nat)
  | ps, [] => .ok (ps, [], 0)
  | ps, f :: fs =>
    match process_frame env ps f .downstream with
    | .error e => .error e
    | .ok (ps1, g, cfg) =>
      match runFrames env ps1 fs with
      | .error e => .error e
      | .ok (ps2, gs, n) => .ok (ps2, g :: gs, (if cfg then 1 else 0) + n)

/-! ## Concrete instances used by the witnesses and counterexamples -/

/-- The directive state produced from the empty snapshot
(`emotions: []`, no `body_state`). -/
def emptySnapshotState : EmotiveVoiceState :=
  map_sable_to_emotive_state { emotions := some [], body_state := none }

/-- An `"anger"` entry at intensity 1. -/
def angerOne : SableEmotion := { etype := some "anger", intensity := some 1 }

/-- A `"joy"` entry at intensity 1. -/
def joyOne : SableEmotion := { etype := some "joy", intensity := some 1 }

/-- A snapshot with an intensity tie; the first entry must win. -/
def ssTie : SableState := { emotions := some [angerOne, joyOne], body_state := none }

/-- The state reached by `start_roleplay("Mom", ["angry","receptive"])`
followed by `end_roleplay()`. -/
def endAfterStart : RoleplayState :=
  end_roleplay (start_roleplay "Mom" ["angry", "receptive"] initialRoleplayState)

/-- The debrief state: roleplay started, then the emotion set to `"neutral"`. -/
def rsDebrief : RoleplayState :=
  set_roleplay_emotion "neutral" (start_roleplay "Mom" ["angry", "receptive"] initialRoleplayState)

/-- A processor wired to the debrief state. -/
def envDebrief : ProcEnv :=
  { get_emotional_state := none
    get_roleplay_state := some rsDebrief
    use_ssml := true
    has_update_tts_config := true
    log_emotions := true }

/-- A concrete in-range state (tension 1, energy 1, intensity 1). -/
def stHot : EmotiveVoiceState :=
  { primary_emotion := .joy
    intensity := 1
    nuanced_emotion := none
    body_state := some { heart_rate := 72, temperature := 0, tension := 1, energy := 1, breathing := 0 } }

/-- The state after `start_roleplay("Mom", ["angry","receptive"])`. -/
def rsStarted : RoleplayState :=
  start_roleplay "Mom" ["angry", "receptive"] initialRoleplayState

/-- A processor wired to `rsStarted`. -/
def envStarted : ProcEnv :=
  { get_emotional_state := none
    get_roleplay_state := some rsStarted
    use_ssml := true
    has_update_tts_config := true
    log_emotions := true }

/-- The neutral zero-intensity fallback state built in the `except` branch. -/
def neutralZeroState : EmotiveVoiceState :=
  { primary_emotion := .neutral, intensity := 0 }

/-- A processor whose fetch raises. -/
def envFail : ProcEnv :=
  { get_emotional_state := some (.error "boom")
    get_roleplay_state := none
    use_ssml := true
    has_update_tts_config := true
    log_emotions := true }

/-- A processor in normal mode (no roleplay getter, no state provider,
SSML on, config callback wired). -/
def envNormal : ProcEnv :=
  { get_emotional_state := none
    get_roleplay_state := none
    use_ssml := true
    has_update_tts_config := true
    log_emotions := true }

/-- A processor in roleplay mode (session started as "Mom" with
["angry","receptive"]), config callback wired. -/
def envRoleplay : ProcEnv :=
  { get_emotional_state := none
    get_roleplay_state := some rsStarted
    use_ssml := true
    has_update_tts_config := true
    log_emotions := true }

/-! ## Helper lemmas -/

theorem le_length_joinSp (x : String) (xs : List String) :
    x.length ≤ (joinSp (x :: xs)).length := by
  cases xs with
  | nil => simp [joinSp]
  | cons y ys =>
    simp [joinSp, String.length_append]
    omega

theorem joinSp_cons_ne_empty (x : String) (xs : List String) (hx : x.length ≠ 0) :
    joinSp (x :: xs) ≠ "" := by
  intro h
  have h1 := le_length_joinSp x xs
  rw [h] at h1
  have h2 : ("" : String).length = 0 := rfl
  omega

theorem emotion_tag_length_ne_zero (emo : String) :
    ("<emotion value=\"" ++ emo ++ "\" />").length ≠ 0 := by
  have h1 : ("<emotion value=\"" : String).length = 16 := rfl
  have h2 : ("\" />" : String).length = 4 := rfl
  simp [String.length_append, h1, h2]

/-- The head of the stable descending sort of a nonempty list is the
first entry attaining the maximum intensity key. -/
theorem pySortedDesc_head_spec (e : SableEmotion) (rest : List SableEmotion) :
    ∃ m tail, pySortedDesc (e :: rest) = m :: tail ∧ m ∈ e :: rest ∧
      (∀ x ∈ e :: rest, ikey x ≤ ikey m) ∧
      (e :: rest).find? (fun x => decide (ikey m ≤ ikey x)) = some m := by
  induction rest generalizing e with
  | nil =>
    refine ⟨e, [], rfl, List.mem_singleton.mpr rfl, ?_, ?_⟩
    · intro x hx
      rw [List.mem_singleton] at hx
      subst hx
      exact le_refl _
    · rw [List.find?_cons_of_pos _ (by simp)]
  | cons y ys ih =>
    obtain ⟨m, tail, hsort, hmem, hmax, hfind⟩ := ih y
    by_cases hgt : ikey m > ikey e
    · refine ⟨m, insertDesc e tail, ?_, List.mem_cons_of_mem e hmem, ?_, ?_⟩
      · show insertDesc e (pySortedDesc (y :: ys)) = m :: insertDesc e tail
        rw [hsort]
        simp only [insertDesc, if_pos hgt]
      · intro x hx
        rcases List.mem_cons.mp hx with hx | hx
        · subst hx
          exact le_of_lt hgt
        · exact hmax x hx
      · rw [List.find?_cons_of_neg _ (by simp [not_le.mpr hgt]), hfind]
    · refine ⟨e, m :: tail, ?_, List.mem_cons_self e _, ?_, ?_⟩
      · show insertDesc e (pySortedDesc (y :: ys)) = e :: m :: tail
        rw [hsort]
        simp only [insertDesc, if_neg hgt]
      · intro x hx
        rcases List.mem_cons.mp hx with hx | hx
        · subst hx
          exact le_refl _
        · exact (hmax x hx).trans (not_lt.mp hgt)
      · rw [List.find?_cons_of_pos _ (by simp)]

/-! ## Claim C2 (markup encoding) -/

unseal Rat.add Rat.sub Rat.mul Rat.inv Rat.ofScientific in
/-- C2 (counterexample): the directive from the empty snapshot is at the
identity defaults (speed 1.0, volume 1.0, low-intensity neutral label
"calm"), yet its markup is the emotion tag `<emotion value="calm" />`,
not the empty string: `generate_ssml_prefix` appends the emotion tag
unconditionally. -/
theorem default_snapshot_markup_not_empty :
    calculate_speed_modifier emptySnapshotState = 1 ∧
    calculate_volume_modifier emptySnapshotState = 1 ∧
    select_cartesia_emotion emptySnapshotState = "calm" ∧
    generate_ssml_tags emptySnapshotState true = "<emotion value=\"calm\" />" ∧
    generate_ssml_tags emptySnapshotState true ≠ "" := by decide

/-- In normal mode the markup is never empty: `generate_ssml_prefix`
always emits the emotion tag. -/
theorem ssml_tags_ne_empty (st : EmotiveVoiceState) : generate_ssml_tags st true ≠ "" := by
  have h : generate_ssml_tags st true =
      joinSp (("<emotion value=\"" ++ select_cartesia_emotion st ++ "\" />") ::
        ((if |calculate_speed_modifier st - 1.0| > 0.05
          then ["<speed ratio=\"" ++ formatFixed2 (calculate_speed_modifier st) ++ "\" />"]
          else []) ++
         (if |calculate_volume_modifier st - 1.0| > 0.05
          then ["<volume ratio=\"" ++ formatFixed2 (calculate_volume_modifier st) ++ "\" />"]
          else []))) := by
    simp [generate_ssml_tags]
  rw [h]
  exact joinSp_cons_ne_empty _ _ (emotion_tag_length_ne_zero _)

/-- C2 (amended): with SSML enabled the emotion tag is always emitted —
even for the identity-default directive, whose markup is exactly
`<emotion value="calm" />` rather than the empty string — and the speed
and volume tags appear exactly when the corresponding ratio deviates
from 1.0 by more than 0.05, in the fixed order emotion, speed, volume. -/
theorem ssml_markup_structure (st : EmotiveVoiceState) :
    (generate_ssml_tags st true ≠ "") ∧
    (¬ |calculate_speed_modifier st - 1.0| > 0.05 →
     ¬ |calculate_volume_modifier st - 1.0| > 0.05 →
      generate_ssml_tags st true =
        "<emotion value=\"" ++ select_cartesia_emotion st ++ "\" />") ∧
    (|calculate_speed_modifier st - 1.0| > 0.05 →
     ¬ |calculate_volume_modifier st - 1.0| > 0.05 →
      generate_ssml_tags st true =
        ("<emotion value=\"" ++ select_cartesia_emotion st ++ "\" />") ++ " " ++
        ("<speed ratio=\"" ++ formatFixed2 (calculate_speed_modifier st) ++ "\" />")) ∧
    (¬ |calculate_speed_modifier st - 1.0| > 0.05 →
     |calculate_volume_modifier st - 1.0| > 0.05 →
      generate_ssml_tags st true =
        ("<emotion value=\"" ++ select_cartesia_emotion st ++ "\" />") ++ " " ++
        ("<volume ratio=\"" ++ formatFixed2 (calculate_volume_modifier st) ++ "\" />")) ∧
    (|calculate_speed_modifier st - 1.0| > 0.05 →
     |calculate_volume_modifier st - 1.0| > 0.05 →
      generate_ssml_tags st true =
        ("<emotion value=\"" ++ select_cartesia_emotion st ++ "\" />") ++ " " ++
        (("<speed ratio=\"" ++ formatFixed2 (calculate_speed_modifier st) ++ "\" />") ++ " " ++
         ("<volume ratio=\"" ++ formatFixed2 (calculate_volume_modifier st) ++ "\" />"))) := by
  refine ⟨ssml_tags_ne_empty st, ?_, ?_, ?_, ?_⟩
  · intro h1 h2
    simp [generate_ssml_tags, h1, h2, joinSp]
  · intro h1 h2
    simp [generate_ssml_tags, h1, h2, joinSp]
  · intro h1 h2
    simp [generate_ssml_tags, h1, h2, joinSp]
  · intro h1 h2
    simp [generate_ssml_tags, h1, h2, joinSp]

unseal Rat.add Rat.sub Rat.mul Rat.inv Rat.ofScientific in
/-- Witness for C2 at the empty-snapshot directive (both ratios within
tolerance, markup is exactly the emotion tag). -/
theorem ssml_markup_structure_witness :
    generate_ssml_tags emptySnapshotState true =
      "<emotion value=\"" ++ select_cartesia_emotion emptySnapshotState ++ "\" />" :=
  (ssml_markup_structure emptySnapshotState).2.1 (by decide) (by decide)

/-! ## Claim C7 (primary-emotion selection) -/

/-- C7: `map_sable_to_emotive_state` selects the primary emotion — the
empty list gives `neutral` at intensity 0; a nonempty list selects the
first entry of maximum intensity (`find?` certifies first occurrence),
whose category is parsed with `neutral` as fallback; and every category
string outside the closed enumeration resolves to `neutral`. -/
theorem map_sable_primary_selection (ss : SableState) :
    (ss.emotions.getD [] = [] →
      (map_sable_to_emotive_state ss).primary_emotion = PrimaryEmotion.neutral ∧
      (map_sable_to_emotive_state ss).intensity = 0) ∧
    (∀ e rest, ss.emotions.getD [] = e :: rest →
      ∃ m, m ∈ e :: rest ∧
        (∀ x ∈ e :: rest, ikey x ≤ ikey m) ∧
        (e :: rest).find? (fun x => decide (ikey m ≤ ikey x)) = some m ∧
        (map_sable_to_emotive_state ss).primary_emotion
          = (primaryEmotionOfString? (m.etype.getD "neutral")).getD PrimaryEmotion.neutral ∧
        (map_sable_to_emotive_state ss).intensity = m.intensity.getD 0) ∧
    (∀ s : String, s ≠ "joy" → s ≠ "sadness" → s ≠ "anger" → s ≠ "fear" →
      s ≠ "disgust" → s ≠ "surprise" → s ≠ "neutral" →
      (primaryEmotionOfString? s).getD PrimaryEmotion.neutral = PrimaryEmotion.neutral) := by
  refine ⟨?_, ?_, ?_⟩
  · intro h
    simp [map_sable_to_emotive_state, h, primaryEmotionOfString?]
  · intro e rest h
    obtain ⟨m, tail, hsort, hmem, hmax, hfind⟩ := pySortedDesc_head_spec e rest
    refine ⟨m, hmem, hmax, hfind, ?_, ?_⟩ <;>
      simp [map_sable_to_emotive_state, h, hsort]
  · intro s h1 h2 h3 h4 h5 h6 h7
    simp [primaryEmotionOfString?, h1, h2, h3, h4, h5, h6, h7]

/-- Witness for C7: on the tied snapshot the selection clauses hold
concretely (the `anger` entry, first in input order, is certified). -/
theorem map_sable_primary_selection_witness :
    ∃ m, m ∈ angerOne :: [joyOne] ∧
      (∀ x ∈ angerOne :: [joyOne], ikey x ≤ ikey m) ∧
      (angerOne :: [joyOne]).find? (fun x => decide (ikey m ≤ ikey x)) = some m ∧
      (map_sable_to_emotive_state ssTie).primary_emotion
        = (primaryEmotionOfString? (m.etype.getD "neutral")).getD PrimaryEmotion.neutral ∧
      (map_sable_to_emotive_state ssTie).intensity = m.intensity.getD 0 :=
  (map_sable_primary_selection ssTie).2.1 angerOne [joyOne] rfl

/-! ## Claim C3 (`end_roleplay`) -/

unseal Rat.add Rat.sub Rat.mul Rat.inv Rat.ofScientific in
/-- C3 (code bug): after `start_roleplay("Mom", ["angry","receptive"])`,
`end_roleplay()` clears `active`, `scenario`, `scenario_emotions` and the
voice modifiers, but — because `update_roleplay_state` treats a `None`
argument as "leave unchanged" — it retains `character = "Mom"` and
`character_emotion = "angry"` instead of resetting them to `None`, so
the result is not the canonical inactive record; a second call changes
nothing further. -/
theorem end_roleplay_keeps_character_fields :
    endAfterStart.active = false ∧ endAfterStart.scenario = 0 ∧
    endAfterStart.scenario_emotions = [] ∧
    endAfterStart.voice_modifiers = ⟨1.0, "medium"⟩ ∧
    endAfterStart.character = some "Mom" ∧
    endAfterStart.character_emotion = some "angry" ∧
    endAfterStart ≠ initialRoleplayState ∧
    end_roleplay endAfterStart = endAfterStart := by decide

/-! ## Claim C4 (`start_roleplay` with an empty sequence) -/

unseal Rat.add Rat.sub Rat.mul Rat.inv Rat.ofScientific in
/-- C4 (counterexample): `start_roleplay` with an empty emotion sequence
does not fail; it silently defaults `character_emotion` to `"neutral"`
and still activates the session. -/
theorem start_roleplay_empty_accepted :
    start_roleplay "Mom" [] initialRoleplayState =
      { active := true, character := some "Mom", character_emotion := some "neutral",
        scenario := 1, scenario_emotions := [], voice_modifiers := ⟨1.05, "medium"⟩ } := by
  decide

/-- C4 (amended): `start_roleplay` is total — for every prior state it
sets `active := true`, `scenario := 1`, `character := character`,
`scenario_emotions := seq` and `voice_modifiers := {speed: 1.05, pitch:
"medium"}`, with `character_emotion` the first element of the sequence,
silently defaulted to `"neutral"` when the sequence is empty (no
`InvalidArgument` error is raised). -/
theorem start_roleplay_result (c : String) (seq : List String) (s : RoleplayState) :
    start_roleplay c seq s =
      { active := true, character := some c, character_emotion := some (seq.headD "neutral"),
        scenario := 1, scenario_emotions := seq, voice_modifiers := ⟨1.05, "medium"⟩ } := by
  cases seq <;> rfl

/-! ## Claim C5 (mode selection) -/

/-- C5: `_is_roleplay_active` selects roleplay mode iff the session is
active and the character emotion is not `"neutral"`; in particular an
active session in debrief (`character_emotion = "neutral"`) selects
normal mode. -/
theorem roleplay_mode_selection (env : ProcEnv) (rs : RoleplayState)
    (h : env.get_roleplay_state = some rs) :
    is_roleplay_active env = true ↔
      (rs.active = true ∧ rs.character_emotion ≠ some "neutral") := by
  simp [is_roleplay_active, h]

/-- Witness for C5: an active session in debrief selects normal mode. -/
theorem roleplay_mode_selection_witness : is_roleplay_active envDebrief = false := by
  cases hb : is_roleplay_active envDebrief with
  | false => rfl
  | true => exact absurd rfl ((roleplay_mode_selection envDebrief rsDebrief rfl).mp hb).2

/-! ## Claim C6 (`advance_roleplay_scenario`) -/

/-- C6: after `start_roleplay("Mom", ["angry","receptive"])`, a first
`advance_roleplay_scenario()` returns `true` and moves the character
emotion to `"receptive"`; a second call returns `false` and leaves the
whole state unchanged; and on any inactive state the call is a no-op
returning `false`. -/
theorem roleplay_advance_sequence (s : RoleplayState) :
    ((advance_roleplay_scenario (start_roleplay "Mom" ["angry", "receptive"] s)).2 = true ∧
     (advance_roleplay_scenario
        (start_roleplay "Mom" ["angry", "receptive"] s)).1.character_emotion
       = some "receptive" ∧
     advance_roleplay_scenario
        ((advance_roleplay_scenario (start_roleplay "Mom" ["angry", "receptive"] s)).1)
       = ((advance_roleplay_scenario (start_roleplay "Mom" ["angry", "receptive"] s)).1, false)) ∧
    (∀ s2 : RoleplayState, s2.active = false →
      advance_roleplay_scenario s2 = (s2, false)) := by
  refine ⟨⟨rfl, rfl, rfl⟩, ?_⟩
  intro s2 h2
  simp [advance_roleplay_scenario, h2]

/-- Witness for C6 at the initial state. -/
theorem roleplay_advance_sequence_witness :
    (advance_roleplay_scenario
       (start_roleplay "Mom" ["angry", "receptive"] initialRoleplayState)).2 = true ∧
    advance_roleplay_scenario initialRoleplayState = (initialRoleplayState, false) :=
  ⟨(roleplay_advance_sequence initialRoleplayState).1.1,
   (roleplay_advance_sequence initialRoleplayState).2 initialRoleplayState rfl⟩

/-! ## Claim C9 (speed and volume modifiers) -/

theorem speed_eq_of_some (state : EmotiveVoiceState) (b : BodyState)
    (h : state.body_state = some b) :
    calculate_speed_modifier state =
      if b.energy < 0.3 then 0.8 + (b.energy / 0.3) * 0.15
      else if b.energy > 0.7 then 1.05 + ((b.energy - 0.7) / 0.3) * 0.25
      else 0.95 + ((b.energy - 0.3) / 0.4) * 0.1 := by
  simp [calculate_speed_modifier, h]

/-- C9: for snapshots with intensity, tension and energy in `[0,1]`, the
speed modifier is 1.0 without body data, lies in the 0.8–0.95 band for
energy below 0.3, in 0.95–1.05 for mid-range energy, in 1.05–1.3 for
energy above 0.7, and both modifiers lie in `[0.5, 2.0]` (the volume
modifier by its explicit clamp). -/
theorem modifier_bands_and_bounds (state : EmotiveVoiceState)
    (hi0 : 0 ≤ state.intensity) (hi1 : state.intensity ≤ 1)
    (hb : ∀ b, state.body_state = some b →
      0 ≤ b.tension ∧ b.tension ≤ 1 ∧ 0 ≤ b.energy ∧ b.energy ≤ 1) :
    (state.body_state = none → calculate_speed_modifier state = 1) ∧
    (∀ b, state.body_state = some b →
      (b.energy < 0.3 →
        0.8 ≤ calculate_speed_modifier state ∧ calculate_speed_modifier state ≤ 0.95) ∧
      (0.3 ≤ b.energy → b.energy ≤ 0.7 →
        0.95 ≤ calculate_speed_modifier state ∧ calculate_speed_modifier state ≤ 1.05) ∧
      (0.7 < b.energy →
        1.05 ≤ calculate_speed_modifier state ∧ calculate_speed_modifier state ≤ 1.3)) ∧
    (0.5 ≤ calculate_speed_modifier state ∧ calculate_speed_modifier state ≤ 2) ∧
    (0.5 ≤ calculate_volume_modifier state ∧ calculate_volume_modifier state ≤ 2) := by
  have hbands : ∀ b, state.body_state = some b →
      (b.energy < 0.3 →
        0.8 ≤ calculate_speed_modifier state ∧ calculate_speed_modifier state ≤ 0.95) ∧
      (0.3 ≤ b.energy → b.energy ≤ 0.7 →
        0.95 ≤ calculate_speed_modifier state ∧ calculate_speed_modifier state ≤ 1.05) ∧
      (0.7 < b.energy →
        1.05 ≤ calculate_speed_modifier state ∧ calculate_speed_modifier state ≤ 1.3) := by
    intro b hsb
    obtain ⟨ht0, ht1, he0, he1⟩ := hb b hsb
    rw [speed_eq_of_some state b hsb]
    have hdiv1 : b.energy / 0.3 * 0.15 = b.energy * (1/2) := by ring
    have hdiv2 : (b.energy - 0.7) / 0.3 * 0.25 = (b.energy - 0.7) * (5/6) := by ring
    have hdiv3 : (b.energy - 0.3) / 0.4 * 0.1 = (b.energy - 0.3) * (1/4) := by ring
    refine ⟨?_, ?_, ?_⟩
    · intro he
      rw [if_pos he, hdiv1]
      constructor <;> nlinarith
    · intro hlo hhi
      rw [if_neg (not_lt.mpr hlo), if_neg (not_lt.mpr hhi), hdiv3]
      constructor <;> nlinarith
    · intro he
      rw [if_neg (not_lt.mpr (by linarith : (0.3:ℚ) ≤ b.energy)), if_pos he, hdiv2]
      constructor <;> nlinarith
  have hspeed : 0.5 ≤ calculate_speed_modifier state ∧ calculate_speed_modifier state ≤ 2 := by
    cases hsb : state.body_state with
    | none =>
      have h1 : calculate_speed_modifier state = 1.0 := by
        simp [calculate_speed_modifier, hsb]
      rw [h1]
      constructor <;> norm_num
    | some b =>
      obtain ⟨ht0, ht1, he0, he1⟩ := hb b hsb
      obtain ⟨hb1, hb2, hb3⟩ := hbands b hsb
      rcases lt_or_le b.energy 0.3 with he | he
      · obtain ⟨hl, hr⟩ := hb1 he
        constructor <;> linarith
      · rcases le_or_lt b.energy 0.7 with he2 | he2
        · obtain ⟨hl, hr⟩ := hb2 he he2
          constructor <;> linarith
        · obtain ⟨hl, hr⟩ := hb3 he2
          constructor <;> linarith
  have hvol : 0.5 ≤ calculate_volume_modifier state ∧ calculate_volume_modifier state ≤ 2 := by
    unfold calculate_volume_modifier
    refine ⟨le_max_left _ _, ?_⟩
    refine max_le (by norm_num) ((min_le_left _ _).trans (by norm_num))
  refine ⟨?_, hbands, hspeed, hvol⟩
  intro hnone
  simp [calculate_speed_modifier, hnone]
  norm_num

/-- Witness for C9: the global bounds hold at a concrete in-range state. -/
theorem modifier_bands_and_bounds_witness :
    (0.5 ≤ calculate_speed_modifier stHot ∧ calculate_speed_modifier stHot ≤ 2) ∧
    (0.5 ≤ calculate_volume_modifier stHot ∧ calculate_volume_modifier stHot ≤ 2) :=
  ⟨(modifier_bands_and_bounds stHot (by decide) (by decide)
      (fun b hb0 => by
        cases hb0
        exact ⟨by decide, by decide, by decide, by decide⟩)).2.2.1,
   (modifier_bands_and_bounds stHot (by decide) (by decide)
      (fun b hb0 => by
        cases hb0
        exact ⟨by decide, by decide, by decide, by decide⟩)).2.2.2⟩

/-! ## Claim C10 (roleplay safety invariant) -/

theorem reachable_active_has_emotion {s : RoleplayState} (h : ReachableRoleplay s) :
    s.active = true → ∃ e, s.character_emotion = some e := by
  induction h with
  | init =>
    intro h0
    rw [show initialRoleplayState.active = false from rfl] at h0
    cases h0
  | start c es ih =>
    intro _
    exact ⟨_, rfl⟩
  | setEmotion e ih =>
    intro _
    exact ⟨e, rfl⟩
  | advance ih =>
    rename_i s1 hr
    cases hb : s1.active with
    | false =>
      simp only [advance_roleplay_scenario, hb, Bool.not_false, if_pos]
      intro h0
      exact absurd h0 Bool.false_ne_true
    | true =>
      simp only [advance_roleplay_scenario, hb, Bool.not_true]
      by_cases hlt : s1.scenario < s1.scenario_emotions.length
      · rw [if_neg (by simp), if_pos hlt]
        intro _
        exact ⟨_, List.getElem?_eq_getElem hlt⟩
      · rw [if_neg (by simp), if_neg hlt]
        exact hr
  | stop ih =>
    intro h0
    rw [show ∀ s1, (end_roleplay s1).active = false from fun _ => rfl] at h0
    cases h0

theorem get_roleplay_ssml_eq (env : ProcEnv) (rs : RoleplayState)
    (henv : env.get_roleplay_state = some rs) :
    get_roleplay_ssml env =
      if !rs.active then .ok none
      else
        match rs.character_emotion with
        | none => .error "AttributeError: NoneType has no attribute lower"
        | some emotion =>
          .ok (some (generate_roleplay_ssml emotion rs.voice_modifiers.speed
            (if truthyOptStr rs.character then 1.05 else 1.0))) := by
  unfold get_roleplay_ssml
  rw [henv]

/-- C10: on every roleplay state reachable through the exposed control
operations, `active = true` implies the character emotion is a string
(never `None`); consequently `_get_roleplay_ssml` — which lowercases the
emotion inside `map_roleplay_emotion` — never hits the `None.lower()`
error path and is total on reachable states. -/
theorem reachable_roleplay_ssml_total (s : RoleplayState) (h : ReachableRoleplay s) :
    (s.active = true → ∃ e, s.character_emotion = some e) ∧
    (∀ env : ProcEnv, env.get_roleplay_state = some s →
      ∃ r, get_roleplay_ssml env = .ok r) := by
  refine ⟨reachable_active_has_emotion h, ?_⟩
  intro env henv
  rw [get_roleplay_ssml_eq env s henv]
  cases hb : s.active with
  | false => exact ⟨none, rfl⟩
  | true =>
    obtain ⟨e, he⟩ := reachable_active_has_emotion h hb
    refine ⟨some (generate_roleplay_ssml e s.voice_modifiers.speed
      (if truthyOptStr s.character then 1.05 else 1.0)), ?_⟩
    rw [he]
    rfl

/-- Witness for C10 at a concrete reachable active state. -/
theorem reachable_roleplay_ssml_total_witness :
    (∃ e, rsStarted.character_emotion = some e) ∧
    (∃ r, get_roleplay_ssml envStarted = .ok r) :=
  ⟨(reachable_roleplay_ssml_total rsStarted
      (.start "Mom" ["angry", "receptive"] .init)).1 rfl,
   (reachable_roleplay_ssml_total rsStarted
      (.start "Mom" ["angry", "receptive"] .init)).2 envStarted rfl⟩

/-! ## Claim C8 (fetch failure degrades to neutral) -/

unseal Rat.add Rat.sub Rat.mul Rat.inv Rat.ofScientific in
theorem neutral_zero_tags :
    generate_ssml_tags neutralZeroState true = "<emotion value=\"calm\" />" := by decide

unseal Rat.add Rat.sub Rat.mul Rat.inv Rat.ofScientific in
theorem select_neutral_zero : select_cartesia_emotion neutralZeroState = "calm" := by decide

/-- C8: when the emotional-state fetch raises, `_get_current_state`
falls back to the neutral zero-intensity state (the failure is not
propagated), and the text frame is still processed and emitted — tagged
with the neutral markup — while the config update is still attempted. -/
theorem fetch_failure_neutral_fallback (env : ProcEnv) (ps : ProcState) (msg t : String)
    (hfail : env.get_emotional_state = some (.error msg))
    (hssml : env.use_ssml = true)
    (hrp : is_roleplay_active env = false)
    (happ : ps.emotion_applied_for_utterance = false) :
    get_current_state env = neutralZeroState ∧
    ∃ ps2, process_frame env ps (.text t) .downstream =
        .ok (ps2, .text ("<emotion value=\"calm\" />" ++ " " ++ t), env.has_update_tts_config) ∧
      ps2.emotion_applied_for_utterance = true := by
  have hstate : get_current_state env = neutralZeroState := by
    simp [get_current_state, hfail, neutralZeroState]
  have hne : ("<emotion value=\"calm\" />" : String) ≠ "" := by decide
  refine ⟨hstate, { ps with
      current_state := some neutralZeroState
      last_emotion :=
        if env.log_emotions && !(ps.last_emotion == some "calm") then some "calm"
        else ps.last_emotion
      emotion_applied_for_utterance := true }, ?_, rfl⟩
  show processTextFrame env ps (.text t) t = _
  rw [processTextFrame, if_neg (by rw [hrp]; exact Bool.false_ne_true)]
  rw [if_pos (by rw [hssml, happ]; rfl)]
  simp only [hstate, hssml, select_neutral_zero, neutral_zero_tags, mkTextFrame,
    if_pos hne, ne_eq]

/-- Witness for C8 at a concrete failing environment. -/
theorem fetch_failure_neutral_fallback_witness :
    get_current_state envFail = neutralZeroState ∧
    ∃ ps2, process_frame envFail initProcState (.text "Hi") .downstream =
        .ok (ps2, .text ("<emotion value=\"calm\" />" ++ " " ++ "Hi"),
             envFail.has_update_tts_config) ∧
      ps2.emotion_applied_for_utterance = true :=
  fetch_failure_neutral_fallback envFail initProcState "boom" "Hi" rfl rfl rfl rfl

/-! ## Claim C1 (exactly-once tagging per turn) -/

/-- The roleplay markup is nonempty whenever the character emotion has a
(nonempty) mapped synthesis emotion. -/
theorem roleplay_tags_ne_empty (e : String) (sp vol : ℚ) (c : String)
    (hm : map_roleplay_emotion e = some c) (hc : c ≠ "") :
    generate_roleplay_ssml e sp vol ≠ "" := by
  have h : generate_roleplay_ssml e sp vol =
      joinSp (("<emotion value=\"" ++ c ++ "\" />") ::
        ((if |sp - 1.0| > 0.05
          then ["<speed ratio=\"" ++ formatFixed2 sp ++ "\" />"] else []) ++
         (if |vol - 1.0| > 0.05
          then ["<volume ratio=\"" ++ formatFixed2 vol ++ "\" />"] else []))) := by
    simp [generate_roleplay_ssml, hm, hc]
  rw [h]
  exact joinSp_cons_ne_empty _ _ (emotion_tag_length_ne_zero _)

/-- Once the per-utterance flag is set, every further text frame of the
turn passes through byte-identical with no config update, in either mode. -/
theorem runFrames_tagged (env : ProcEnv) (ps : ProcState)
    (hps : ps.emotion_applied_for_utterance = true) (ts : List String) :
    runFrames env ps (ts.map PFrame.text) = .ok (ps, ts.map PFrame.text, 0) := by
  induction ts with
  | nil => rfl
  | cons a l ih =>
    have hstep : process_frame env ps (.text a) .downstream = .ok (ps, .text a, false) := by
      simp [process_frame, processTextFrame, hps]
    simp [runFrames, hstep, ih]

/-- The first text frame of an untagged turn in normal mode: tagged,
flag set, config update attempted iff the callback is wired. -/
theorem normal_mode_step (env : ProcEnv) (ps : ProcState) (t : String)
    (hrp : is_roleplay_active env = false) (hssml : env.use_ssml = true)
    (happ : ps.emotion_applied_for_utterance = false) :
    process_frame env ps (.text t) .downstream =
      .ok ({ ps with
              current_state := some (get_current_state env)
              last_emotion :=
                if env.log_emotions &&
                    !(ps.last_emotion == some (select_cartesia_emotion (get_current_state env)))
                then some (select_cartesia_emotion (get_current_state env))
                else ps.last_emotion
              emotion_applied_for_utterance := true },
           .text (generate_ssml_tags (get_current_state env) true ++ " " ++ t),
           env.has_update_tts_config) := by
  show processTextFrame env ps (.text t) t = _
  rw [processTextFrame, if_neg (by rw [hrp]; exact Bool.false_ne_true)]
  rw [if_pos (by rw [hssml, happ]; rfl)]
  simp only [hssml, mkTextFrame, if_pos (ssml_tags_ne_empty (get_current_state env)), ne_eq]

/-- The first text frame of an untagged turn in roleplay mode with a
nonempty roleplay markup: tagged, flag set, and no config update. -/
theorem roleplay_mode_step (env : ProcEnv) (ps : ProcState) (t p : String)
    (hact : is_roleplay_active env = true) (hssml : env.use_ssml = true)
    (happ : ps.emotion_applied_for_utterance = false)
    (hok : get_roleplay_ssml env = .ok (some p)) (hp : p ≠ "") :
    process_frame env ps (.text t) .downstream =
      .ok ({ ps with emotion_applied_for_utterance := true }, .text (p ++ " " ++ t), false) := by
  show processTextFrame env ps (.text t) t = _
  rw [processTextFrame, if_pos hact]
  rw [if_pos (by rw [hssml, happ]; rfl)]
  rw [hok]
  simp only [mkTextFrame, if_pos hp, ne_eq]

/-- C1 (amended): for a turn opened by a turn-start signal and split into
`N = 1 + |ts|` fragments, exactly one fragment — the first — is emitted
with the prepended markup and the other fragments pass through
byte-identical, in both modes; but the synthesis-configuration update is
triggered (exactly once) in normal mode only: roleplay mode prepends the
markup without any configuration update (and its markup is nonempty
provided the character emotion has a known non-neutral mapping). -/
theorem exactly_once_tagging_per_turn (env : ProcEnv) (ps : ProcState)
    (t : String) (ts : List String) (hssml : env.use_ssml = true) :
    (is_roleplay_active env = false → env.has_update_tts_config = true →
      ∃ ps2, runFrames env ps (PFrame.llmStart :: (t :: ts).map PFrame.text)
          = .ok (ps2,
              PFrame.llmStart ::
                PFrame.text (generate_ssml_tags (get_current_state env) true ++ " " ++ t) ::
                ts.map PFrame.text,
              1) ∧
        generate_ssml_tags (get_current_state env) true ≠ "") ∧
    (∀ rs e c, env.get_roleplay_state = some rs → rs.active = true →
      rs.character_emotion = some e → e ≠ "neutral" →
      map_roleplay_emotion e = some c → c ≠ "" →
      ∃ ps2 p, get_roleplay_ssml env = .ok (some p) ∧ p ≠ "" ∧
        runFrames env ps (PFrame.llmStart :: (t :: ts).map PFrame.text)
          = .ok (ps2, PFrame.llmStart :: PFrame.text (p ++ " " ++ t) :: ts.map PFrame.text,
                 0)) := by
  constructor
  · intro hrp hcfg
    have h0 : process_frame env ps .llmStart .downstream =
        .ok ({ ps with in_llm_response := true, emotion_applied_for_utterance := false },
             .llmStart, false) := rfl
    obtain ⟨psA, hA, hAflag⟩ : ∃ psA,
        process_frame env { ps with in_llm_response := true, emotion_applied_for_utterance := false }
            (.text t) .downstream
          = .ok (psA, .text (generate_ssml_tags (get_current_state env) true ++ " " ++ t),
                 env.has_update_tts_config) ∧
        psA.emotion_applied_for_utterance = true :=
      ⟨_, normal_mode_step env _ t hrp hssml rfl, rfl⟩
    refine ⟨psA, ?_, ssml_tags_ne_empty _⟩
    have h2 := runFrames_tagged env psA hAflag ts
    simp only [List.map_cons, runFrames, h0, hA, h2]
    simp [hcfg]
  · intro rs e c henv hactive hemo hne hmap hc
    have hbeq : (e == "neutral") = false := by
      cases hcheck : e == "neutral" with
      | false => rfl
      | true => exact absurd (eq_of_beq hcheck) hne
    have hact : is_roleplay_active env = true := by
      unfold is_roleplay_active
      rw [henv]
      show (rs.active && !(rs.character_emotion == some "neutral")) = true
      rw [hactive, hemo]
      show (true && !(e == "neutral")) = true
      rw [hbeq]
      rfl
    have hp : get_roleplay_ssml env =
        .ok (some (generate_roleplay_ssml e rs.voice_modifiers.speed
          (if truthyOptStr rs.character then 1.05 else 1.0))) := by
      rw [get_roleplay_ssml_eq env rs henv, hactive, hemo]
      rfl
    have hpne := roleplay_tags_ne_empty e rs.voice_modifiers.speed
      (if truthyOptStr rs.character then 1.05 else 1.0) c hmap hc
    have h0 : process_frame env ps .llmStart .downstream =
        .ok ({ ps with in_llm_response := true, emotion_applied_for_utterance := false },
             .llmStart, false) := rfl
    obtain ⟨psA, hA, hAflag⟩ : ∃ psA,
        process_frame env { ps with in_llm_response := true, emotion_applied_for_utterance := false }
            (.text t) .downstream
          = .ok (psA,
              .text (generate_roleplay_ssml e rs.voice_modifiers.speed
                (if truthyOptStr rs.character then 1.05 else 1.0) ++ " " ++ t),
              false) ∧
        psA.emotion_applied_for_utterance = true :=
      ⟨_, roleplay_mode_step env _ t _ hact hssml rfl hp hpne, rfl⟩
    refine ⟨psA, _, hp, hpne, ?_⟩
    have h2 := runFrames_tagged env psA hAflag ts
    simp only [List.map_cons, runFrames, h0, hA, h2]
    simp

unseal Rat.add Rat.sub Rat.mul Rat.inv Rat.ofScientific in
/-- C1 (counterexample): in roleplay mode the tagging fragment does NOT
trigger the synthesis-configuration update even though the callback is
wired — the turn's one tagged fragment goes out with the roleplay markup
while the config-update count stays 0, contradicting the claim for
roleplay mode. -/
theorem roleplay_tagging_skips_config_update :
    envRoleplay.has_update_tts_config = true ∧
    runFrames envRoleplay initProcState [PFrame.llmStart, PFrame.text "Hello"]
      = .ok ({ current_state := none, last_emotion := none,
               emotion_applied_for_utterance := true, in_llm_response := true },
             [PFrame.llmStart, PFrame.text "<emotion value=\"angry\" /> Hello"], 0) := by
  decide

/-- Witness for C1: both modes at a concrete two-fragment turn. -/
theorem exactly_once_tagging_per_turn_witness :
    (∃ ps2, runFrames envNormal initProcState
          (PFrame.llmStart :: (("Hello" :: ["there"]).map PFrame.text))
        = .ok (ps2,
            PFrame.llmStart ::
              PFrame.text (generate_ssml_tags (get_current_state envNormal) true ++ " " ++ "Hello") ::
              (["there"].map PFrame.text),
            1) ∧
      generate_ssml_tags (get_current_state envNormal) true ≠ "") ∧
    (∃ ps2 p, get_roleplay_ssml envRoleplay = .ok (some p) ∧ p ≠ "" ∧
      runFrames envRoleplay initProcState
          (PFrame.llmStart :: (("Hello" :: ["there"]).map PFrame.text))
        = .ok (ps2, PFrame.llmStart :: PFrame.text (p ++ " " ++ "Hello") ::
                 (["there"].map PFrame.text), 0)) :=
  ⟨(exactly_once_tagging_per_turn envNormal initProcState "Hello" ["there"] rfl).1 rfl rfl,
   (exactly_once_tagging_per_turn envRoleplay initProcState "Hello" ["there"] rfl).2
      rsStarted "angry" "angry" rfl rfl rfl (by decide) (by decide) (by decide)⟩

end Ginger
